import Mathlib

/-!
Verification of the core logic of the Vision repository
(`src/vision_service/scripts/face_detection.py` and
`src/vision_service/scripts/face_recognizer.py`): the presence tracker,
the closest-face selector, the qualifying-frame predicate, the per-frame
orchestrator loop body, and the file-mediated recognition client protocol.
Each definition is a shallow embedding of the corresponding Python code;
definitions suffixed `_spec` or prefixed `spec_` follow the specification's
words instead, for refinement comparisons.
-/

namespace Vision

/-- A face bounding box as the tuple (x1, y1, x2, y2) = (left, top, right, bottom)
used throughout `face_detection.py`.  Coordinates are Python integers, embedded as ℤ. -/
structure Box where
  left : ℤ
  top : ℤ
  right : ℤ
  bottom : ℤ
deriving DecidableEq, Repr

/-- The box area `(right - left) * (bottom - top)` computed inside
`get_closest_face` and `face_detected`. -/
def area (b : Box) : ℤ :=
  (b.right - b.left) * (b.bottom - b.top)

/-- `FACE_AREA = 1500` from `face_detection.py` line 39: the proximity threshold. -/
def FACE_AREA : ℤ := 1500

/-- Loop body of `get_closest_face` (lines 124-134): the running state is
`(i, max_id, face_area)`; an update happens only on a strictly greater area. -/
def gcfStep (s : ℕ × ℕ × ℤ) (b : Box) : ℕ × ℕ × ℤ :=
  if area b > s.2.2 then (s.1 + 1, s.1, area b) else (s.1 + 1, s.2.1, s.2.2)

/-- `get_closest_face(bbs)` (lines 124-134): starts with `i = 0`, `max_id = 0`,
`face_area = 0`, folds the loop body over the list, and returns `max_id`. -/
def get_closest_face (bbs : List Box) : ℕ :=
  (bbs.foldl gcfStep (0, 0, 0)).2.1

/-- `face_detected(bbs)` (lines 143-152): computes the running maximum of the
box areas starting from `face_area = 0` (updating only on strict increase) and
returns `True` iff the result exceeds `FACE_AREA`. -/
def face_detected (bbs : List Box) : Bool :=
  let face_area := bbs.foldl (fun acc b => if area b > acc then area b else acc) 0
  if face_area > FACE_AREA then true else false

/-- The presence state mutated by the main loop of `face_detection.py`:
`face_nearby` (line 251) and `no_face_detect_counter` (line 255). -/
structure TrackerState where
  face_nearby : Bool
  no_face_detect_counter : ℕ
deriving DecidableEq, Repr

/-- Initial state at the top of `__main__`: `face_nearby = False` (line 251),
`no_face_detect_counter = 0` (line 255). -/
def initialState : TrackerState :=
  ⟨false, 0⟩

/-- The per-frame presence update from the main loop (lines 307-322).
If the detection list is empty (line 307) the counter is incremented and,
past 3, `face_nearby` is cleared (lines 308-310); otherwise, if
`face_detected` holds, `face_nearby` is set (lines 317-318), else the same
counter increment and clearing happens (lines 320-322).  Note that the code
never resets `no_face_detect_counter`. -/
def frameStep (s : TrackerState) (total_boxes : List Box) : TrackerState :=
  if total_boxes.isEmpty then
    let c := s.no_face_detect_counter + 1
    ⟨if c > 3 then false else s.face_nearby, c⟩
  else if face_detected total_boxes then
    ⟨true, s.no_face_detect_counter⟩
  else
    let c := s.no_face_detect_counter + 1
    ⟨if c > 3 then false else s.face_nearby, c⟩

/-- Iterate the per-frame update over a list of frames (each frame is the
detection list `total_boxes` of that loop iteration). -/
def runFrames (s : TrackerState) (frames : List (List Box)) : TrackerState :=
  frames.foldl frameStep s

/-- The value of `face_nearby` observed after each successive frame. -/
def presenceTrace (s : TrackerState) (frames : List (List Box)) : List Bool :=
  ((List.scanl frameStep s frames).tail).map (fun st => st.face_nearby)

/-- A box of area 50 (non-qualifying: 50 ≤ 1500). -/
def smallBox : Box := ⟨0, 0, 10, 5⟩

/-- A box of area 2000 (qualifying: 2000 > 1500). -/
def bigBox : Box := ⟨0, 0, 50, 40⟩

/-- The eight frames of the end-to-end scenario: largest-box areas
50, 2000, 2000, 2000, 50, 50, 50, 50. -/
def scenarioFrames : List (List Box) :=
  [[smallBox], [bigBox], [bigBox], [bigBox],
   [smallBox], [smallBox], [smallBox], [smallBox]]

/-- The frame history for the hysteresis claim: areas 50, 50, 50, 2000, 50, 2000 —
a single non-qualifying frame (the fifth) sandwiched between two qualifying
frames (the fourth and the sixth). -/
def sandwichFrames : List (List Box) :=
  [[smallBox], [smallBox], [smallBox], [bigBox], [smallBox], [bigBox]]

/-- C1: the claim says a qualifying frame resets `no_face_detect_counter` to 0
and sets the state to Present.  Evaluating the code's per-frame update at a
qualifying frame (single box of area 2000 > `FACE_AREA`) from a state with
counter 5 shows the code sets `face_nearby := True` but leaves the counter at
5: the reset the claim (and the code's own comment at lines 253-254) requires
is missing. -/
theorem C1_qualifying_frame_keeps_counter :
    face_detected [bigBox] = true ∧
    frameStep ⟨false, 5⟩ [bigBox] = ⟨true, 5⟩ := by
  constructor
  · decide
  · decide

/-- C2: the claim expects the presence sequence
Absent, Present, Present, Present, Present, Present, Present, Absent on the
eight-frame scenario.  Evaluating the code gives
Absent, Present, Present, Present, Present, Present, Absent, Absent instead:
the counter still holds 1 from the first frame (it is never reset on
qualifying frames), so the 3rd consecutive trailing miss already pushes it
past 3 and the state drops one frame early. -/
theorem C2_scenario_diverges :
    presenceTrace initialState scenarioFrames
      = [false, true, true, true, true, true, false, false] ∧
    presenceTrace initialState scenarioFrames
      ≠ [false, true, true, true, true, true, true, false] := by
  constructor
  · decide
  · decide

/-- C3: the claim says a single non-qualifying frame sandwiched between
qualifying frames never flips Present to Absent (MISS_LIMIT = 3 ≥ 1 here).
Evaluating the code on areas 50, 50, 50, 2000, 50, 2000: the fifth frame is a
single miss between two qualifying frames, yet the trace shows the state
flips to Absent on it (the counter, never reset by the qualifying fourth
frame, reaches 4 > 3). -/
theorem C3_single_sandwiched_miss_flips :
    face_detected [bigBox] = true ∧
    face_detected [smallBox] = false ∧
    presenceTrace initialState sandwichFrames
      = [false, false, false, true, false, true] := by
  refine ⟨by decide, by decide, by decide⟩

/-- The error kind named by the specification for a Selector call on an
empty list. -/
inductive SelectorError where
  | invalidInput
deriving DecidableEq, Repr

/-- Modelled from the spec's words, for the refinement comparison of C4:
"Given an empty sequence ... it fails with an InvalidInput error"; on a
non-empty sequence it behaves as the code does. -/
def selector_spec : List Box → Except SelectorError ℕ
  | [] => Except.error SelectorError.invalidInput
  | b :: t => Except.ok (get_closest_face (b :: t))

/-- C4 counterexample: at the concrete empty input, `get_closest_face` does
not fail — it returns the value 0 (the initial `max_id`), whereas the claim
demands an `InvalidInput` failure (as `selector_spec`, which follows the
spec's words, exhibits). -/
theorem C4_empty_input_returns_value :
    get_closest_face [] = 0 ∧
    selector_spec [] = Except.error SelectorError.invalidInput := by
  exact ⟨rfl, rfl⟩

/-- C4 amended: when invoked on an empty sequence of bounding boxes,
`get_closest_face` returns index 0 (its initial `max_id`, an index at which
no box exists) rather than failing. -/
theorem C4_amended_empty_returns_zero :
    get_closest_face ([] : List Box) = 0 := by
  rfl

/-- Modelled from the spec's words, for the refinement comparison of C6:
"`maxArea` = area of the single largest box in the list (0 if list empty)". -/
def spec_maxArea (bbs : List Box) : ℤ :=
  match bbs with
  | [] => 0
  | b :: t => t.foldl (fun acc x => max acc (area x)) (area b)

theorem if_gt_eq_max (a c : ℤ) : (if c > a then c else a) = max a c := by
  split_ifs with h
  · exact (max_eq_right h.le).symm
  · exact (max_eq_left (not_lt.mp h)).symm

theorem foldl_area_if_eq_foldl_max (t : List Box) :
    ∀ a : ℤ, t.foldl (fun acc b => if area b > acc then area b else acc) a
      = t.foldl (fun acc b => max acc (area b)) a := by
  induction t with
  | nil => intro a; rfl
  | cons b t ih =>
    intro a
    simp only [List.foldl_cons, if_gt_eq_max, ih]

theorem foldl_max_max (t : List Box) :
    ∀ a c : ℤ, t.foldl (fun acc b => max acc (area b)) (max a c)
      = max a (t.foldl (fun acc b => max acc (area b)) c) := by
  induction t with
  | nil => intro a c; rfl
  | cons x xs ih =>
    intro a c
    simp only [List.foldl_cons, max_assoc, ih]

/-- The running maximum computed inside `face_detected` equals the spec's
maximum clamped below by the initial accumulator 0. -/
theorem face_detected_foldl_eq (bbs : List Box) :
    bbs.foldl (fun acc b => if area b > acc then area b else acc) 0
      = max 0 (spec_maxArea bbs) := by
  cases bbs with
  | nil => rfl
  | cons b t =>
    rw [foldl_area_if_eq_foldl_max]
    simp only [List.foldl_cons, spec_maxArea]
    rw [foldl_max_max]

/-- C6: `face_detected` returns `True` exactly when the maximum box area in
the list (0 for the empty list) strictly exceeds `FACE_AREA` (1500).  The
clamp at 0 introduced by the code's accumulator is invisible because the
threshold 1500 is positive. -/
theorem C6_face_detected_iff (bbs : List Box) :
    face_detected bbs = true ↔ spec_maxArea bbs > FACE_AREA := by
  unfold face_detected
  rw [face_detected_foldl_eq]
  constructor
  · intro h
    by_contra hn
    rw [if_neg] at h
    · exact Bool.false_ne_true h
    · intro hlt
      rcases lt_max_iff.mp hlt with h0 | hM
      · exact absurd h0 (by norm_num [FACE_AREA])
      · exact hn hM
  · intro h
    rw [if_pos]
    exact lt_max_iff.mpr (Or.inr h)

/-- A box satisfies the data-model invariant `left < right ∧ top < bottom`. -/
def Box.valid (b : Box) : Prop :=
  b.left < b.right ∧ b.top < b.bottom

instance (b : Box) : Decidable b.valid := by
  unfold Box.valid
  infer_instance

theorem area_pos (b : Box) (h : b.valid) : 0 < area b := by
  rcases h with ⟨h1, h2⟩
  exact mul_pos (by omega) (by omega)

/-- Loop invariant of `get_closest_face`: folding `gcfStep` from state
`(i, m, fa)` over a list either leaves `(m, fa)` untouched (when no area
strictly exceeds `fa`) or ends at the first position whose area strictly
exceeds everything before it and weakly dominates everything in the list. -/
theorem gcf_foldl_spec (l : List Box) :
    ∀ (i m : ℕ) (fa : ℤ),
    (l.foldl gcfStep (i, m, fa)).1 = i + l.length ∧
    (((l.foldl gcfStep (i, m, fa)).2.1 = m ∧ (l.foldl gcfStep (i, m, fa)).2.2 = fa ∧
        ∀ j (hj : j < l.length), area (l.get ⟨j, hj⟩) ≤ fa) ∨
      (∃ k, ∃ hk : k < l.length,
        (l.foldl gcfStep (i, m, fa)).2.1 = i + k ∧
        (l.foldl gcfStep (i, m, fa)).2.2 = area (l.get ⟨k, hk⟩) ∧
        fa < area (l.get ⟨k, hk⟩) ∧
        (∀ j (hj : j < l.length), area (l.get ⟨j, hj⟩) ≤ area (l.get ⟨k, hk⟩)) ∧
        (∀ j (hj : j < k), area (l.get ⟨j, Nat.lt_trans hj hk⟩) < area (l.get ⟨k, hk⟩)))) := by
  induction l with
  | nil =>
    intro i m fa
    exact ⟨rfl, Or.inl ⟨rfl, rfl, fun j hj => absurd hj (Nat.not_lt_zero j)⟩⟩
  | cons b t ih =>
    intro i m fa
    by_cases hb : area b > fa
    · have hstep : (b :: t).foldl gcfStep (i, m, fa) = t.foldl gcfStep (i + 1, i, area b) := by
        simp only [List.foldl_cons, gcfStep, if_pos hb]
      rw [hstep]
      rcases ih (i + 1) i (area b) with ⟨hlen, hcase⟩
      refine ⟨by simp [hlen, List.length_cons]; omega, ?_⟩
      rcases hcase with ⟨hm, hfa, hall⟩ | ⟨k, hk, hm, hfa, hgt, hall, hfirst⟩
      · refine Or.inr ⟨0, Nat.succ_pos t.length, by simpa using hm, by simpa using hfa, hb, ?_, ?_⟩
        · intro j hj
          cases j with
          | zero => exact le_refl _
          | succ j' =>
            have hj' : j' < t.length := Nat.lt_of_succ_lt_succ hj
            exact hall j' hj'
        · intro j hj
          exact absurd hj (Nat.not_lt_zero j)
      · refine Or.inr ⟨k + 1, Nat.succ_lt_succ hk, by rw [hm]; omega, by simpa using hfa, ?_, ?_, ?_⟩
        · exact lt_trans hb (by simpa using hgt)
        · intro j hj
          cases j with
          | zero => exact le_of_lt (by simpa using hgt)
          | succ j' =>
            have hj' : j' < t.length := Nat.lt_of_succ_lt_succ hj
            simpa using hall j' hj'
        · intro j hj
          cases j with
          | zero => exact (by simpa using hgt)
          | succ j' =>
            have hj' : j' < k := Nat.lt_of_succ_lt_succ hj
            simpa using hfirst j' hj'
    · have hstep : (b :: t).foldl gcfStep (i, m, fa) = t.foldl gcfStep (i + 1, m, fa) := by
        simp only [List.foldl_cons, gcfStep, if_neg hb]
      rw [hstep]
      rcases ih (i + 1) m fa with ⟨hlen, hcase⟩
      refine ⟨by simp [hlen, List.length_cons]; omega, ?_⟩
      rcases hcase with ⟨hm, hfa, hall⟩ | ⟨k, hk, hm, hfa, hgt, hall, hfirst⟩
      · refine Or.inl ⟨hm, hfa, ?_⟩
        intro j hj
        cases j with
        | zero => exact not_lt.mp hb
        | succ j' =>
          have hj' : j' < t.length := Nat.lt_of_succ_lt_succ hj
          simpa using hall j' hj'
      · refine Or.inr ⟨k + 1, Nat.succ_lt_succ hk, by rw [hm]; omega, by simpa using hfa, ?_, ?_, ?_⟩
        · exact hgt
        · intro j hj
          cases j with
          | zero => exact le_of_lt (lt_of_le_of_lt (not_lt.mp hb) hgt)
          | succ j' =>
            have hj' : j' < t.length := Nat.lt_of_succ_lt_succ hj
            simpa using hall j' hj'
        · intro j hj
          cases j with
          | zero => exact lt_of_le_of_lt (not_lt.mp hb) hgt
          | succ j' =>
            have hj' : j' < k := Nat.lt_of_succ_lt_succ hj
            simpa using hfirst j' hj'

/-- C5: on a non-empty list of valid boxes, `get_closest_face` returns an
in-range index whose box area weakly dominates every box in the list and
strictly dominates every box at a smaller index — so among the boxes of
maximal area, the lowest index is returned. -/
theorem C5_selector_correct (bbs : List Box) (hne : bbs ≠ [])
    (hvalid : ∀ b ∈ bbs, b.valid) :
    ∃ hk : get_closest_face bbs < bbs.length,
      (∀ j (hj : j < bbs.length),
        area (bbs.get ⟨j, hj⟩) ≤ area (bbs.get ⟨get_closest_face bbs, hk⟩)) ∧
      (∀ j (hj : j < get_closest_face bbs),
        area (bbs.get ⟨j, Nat.lt_trans hj hk⟩) < area (bbs.get ⟨get_closest_face bbs, hk⟩)) := by
  rcases gcf_foldl_spec bbs 0 0 0 with ⟨-, hcase⟩
  rcases hcase with ⟨-, -, hall⟩ | ⟨k, hk, hm, -, -, hall, hfirst⟩
  · exfalso
    cases bbs with
    | nil => exact hne rfl
    | cons b t =>
      have h0 : area ((b :: t).get ⟨0, Nat.succ_pos t.length⟩) ≤ 0 :=
        hall 0 (Nat.succ_pos t.length)
      exact absurd (area_pos b (hvalid b (List.mem_cons_self b t))) (by simpa using h0.not_lt)
  · have hkey : get_closest_face bbs = k := by
      unfold get_closest_face
      rw [hm, Nat.zero_add]
    rw [hkey]
    exact ⟨hk, hall, hfirst⟩

/-- The example box list from the spec:
`[(0,0,10,10), (0,0,20,20), (5,5,15,15)]` with areas 100, 400, 100. -/
def specBoxes : List Box :=
  [⟨0, 0, 10, 10⟩, ⟨0, 0, 20, 20⟩, ⟨5, 5, 15, 15⟩]

/-- Witness for C5 at the spec's example list (the selector picks index 1,
the box of area 400). -/
theorem C5_selector_correct_witness :
    (specBoxes ≠ [] ∧ (∀ b ∈ specBoxes, b.valid) ∧ get_closest_face specBoxes = 1) ∧
    (∃ hk : get_closest_face specBoxes < specBoxes.length,
      (∀ j (hj : j < specBoxes.length),
        area (specBoxes.get ⟨j, hj⟩) ≤ area (specBoxes.get ⟨get_closest_face specBoxes, hk⟩)) ∧
      (∀ j (hj : j < get_closest_face specBoxes),
        area (specBoxes.get ⟨j, Nat.lt_trans hj hk⟩)
          < area (specBoxes.get ⟨get_closest_face specBoxes, hk⟩))) :=
  ⟨⟨by decide, by decide, by decide⟩,
    C5_selector_correct specBoxes (by decide) (by decide)⟩

/-- Python runtime errors relevant to the two scripts. -/
inductive PyError where
  | nameError (n : String)
  | keyError (k : String)
  | fileExistsError (p : String)
  | ioError (p : String)
deriving DecidableEq, Repr

/-- Every name bound at module scope in `face_detection.py`: imports
(lines 18-33), the two constants, the nine function definitions, and every
name assigned inside the module-level `__main__` block. -/
def moduleNames : List String :=
  ["sys", "np", "cv2", "os", "misc", "time", "re", "pickle",
   "start_new_thread", "tf", "detect_face", "pyrs",
   "EXPECT_SIZE", "FACE_AREA",
   "detect_face_and_landmarks_mtcnn", "align_face_mtcnn", "draw_rects",
   "draw_landmarks", "get_closest_face", "face_detected", "recognize_face",
   "load_model", "get_model_filenames",
   "x_pixel", "y_pixel", "resize_factor", "face_nearby",
   "no_face_detect_counter", "dev", "sess", "pnet", "rnet", "onet",
   "minsize", "threshold", "factor", "tree_model", "svm_model", "clf",
   "model_dir", "meta_file", "ckpt_file", "session", "graph", "image_batch",
   "phase_train_placeholder", "embeddings", "c", "d", "img", "d_img",
   "total_boxes", "points", "start_recognize_face", "draw"]

/-- The Python 2 built-in namespace (note `False` and `True` are the only
boolean names; there is no builtin `false`). -/
def pythonBuiltinNames : List String :=
  ["False", "True", "None", "NotImplemented", "Ellipsis", "abs", "all",
   "any", "bin", "bool", "bytearray", "callable", "chr", "classmethod",
   "cmp", "compile", "complex", "delattr", "dict", "dir", "divmod",
   "enumerate", "execfile", "file", "filter", "float", "format",
   "frozenset", "getattr", "globals", "hasattr", "hash", "help", "hex",
   "id", "input", "int", "isinstance", "issubclass", "iter", "len", "list",
   "locals", "long", "map", "max", "min", "next", "object", "oct", "open",
   "ord", "pow", "print", "property", "range", "raw_input", "reduce",
   "reload", "repr", "reversed", "round", "set", "setattr", "slice",
   "sorted", "staticmethod", "str", "sum", "super", "tuple", "type",
   "unichr", "unicode", "vars", "xrange", "zip", "__name__", "__import__"]

/-- Evaluating a bare name in the module's `__main__` block: defined names
resolve, any other name raises `NameError` (Python name resolution at
module scope: globals, then builtins). -/
def lookupName (n : String) : Except PyError Unit :=
  if n ∈ moduleNames ∨ n ∈ pythonBuiltinNames then Except.ok ()
  else Except.error (PyError.nameError n)

/-- Result of one completed loop iteration: the tracker state and whether the
recognition thread was started (lines 326-329). -/
structure FrameResult where
  tracker : TrackerState
  recognitionTriggered : Bool
deriving DecidableEq, Repr

/-- One iteration of the main loop (lines 307-341) after the detection list
is available.  On an empty list the iteration ends at `continue` (line 314)
after the tracker update.  Otherwise the tracker update (lines 317-322) is
followed by line 325, `start_recognize_face = false`, whose right-hand side
evaluates the undefined name `false`; only if that resolved would the
`if start_recognize_face:` recognition trigger and the drawing statements
run. -/
def frameStepFull (s : TrackerState) (total_boxes : List Box) :
    Except PyError FrameResult :=
  if total_boxes.isEmpty then
    Except.ok ⟨frameStep s total_boxes, false⟩
  else
    match lookupName "false" with
    | Except.error e => Except.error e
    | Except.ok _ =>
      let start_recognize_face := false
      Except.ok ⟨frameStep s total_boxes, start_recognize_face⟩

/-- C7: on every frame with a non-empty detection list, the loop body raises
an unhandled `NameError` for the name `false` at line 325 — it never reaches
the recognition trigger or anything after it (the result is the error, never
an `ok` carrying a completed iteration). -/
theorem C7_name_error_on_nonempty_frame (s : TrackerState) (bbs : List Box)
    (hne : bbs ≠ []) :
    frameStepFull s bbs = Except.error (PyError.nameError "false") := by
  match bbs, hne with
  | b :: t, _ => rfl

/-- Witness for C7 at a concrete state and frame. -/
theorem C7_name_error_witness :
    frameStepFull initialState [bigBox] = Except.error (PyError.nameError "false") :=
  C7_name_error_on_nonempty_frame initialState [bigBox] (by decide)

/-- The shared directory's state: an association list from file path to file
contents (marker files have empty contents). -/
abbrev FS : Type := List (String × String)

/-- `os.path.exists`. -/
def FS.existsFile (fs : FS) (p : String) : Bool :=
  fs.any (fun e => e.1 == p)

/-- `open(p).read()`: the contents of `p`, if the file exists. -/
def FS.readFile (fs : FS) (p : String) : Option String :=
  (fs.find? (fun e => e.1 == p)).map (fun e => e.2)

/-- `os.remove(p)` (on a path known to exist). -/
def FS.removeFile (fs : FS) (p : String) : FS :=
  List.filter (fun e => !(e.1 == p)) fs

/-- The filesystem operations `check_file` performs, in order. -/
inductive FileOp where
  | mknod (p : String)
  | pollCheck (p : String) (found : Bool)
  | sleepMs (ms : ℕ)
  | readFile (p : String)
  | removeFile (p : String)
deriving DecidableEq, Repr

/-- The polling loop of `check_file` (`face_recognizer.py` lines 13-15):
`while not os.path.exists(PATH + 'out'): sleep(0.1)`.  The external Gateway
process may create files between wake-ups; `env` lists the files it creates
before each successive existence check, and the loop is observed for
`env.length` checks (`none` means the environment never produced `out`
within the observation window, i.e. the loop is still spinning). -/
def pollLoop (path : String) : FS → List (List (String × String)) →
    Option (FS × List FileOp)
  | _, [] => none
  | fs, w :: rest =>
    if FS.existsFile (w ++ fs) (path ++ "out") then
      some (w ++ fs, [FileOp.pollCheck (path ++ "out") true])
    else
      match pollLoop path (w ++ fs) rest with
      | none => none
      | some (fs3, ops) =>
        some (fs3, FileOp.pollCheck (path ++ "out") false ::
          FileOp.sleepMs 100 :: ops)

/-- `check_file(object_id)` (`face_recognizer.py` lines 10-19):
`os.mknod(PATH + 'request')` (raises if the marker already exists), the
polling loop, then `open(PATH + 'out').read()`, `os.remove(PATH + 'out')`,
and return of the contents read.  The result carries the returned label, the
final filesystem and the ordered trace of filesystem operations; `ok none`
means the poll was still spinning at the end of the observation window. -/
def check_file (object_id : String) (path : String) (fs : FS)
    (env : List (List (String × String))) :
    Except PyError (Option (String × FS × List FileOp)) :=
  if fs.existsFile (path ++ "request") then
    Except.error (PyError.fileExistsError (path ++ "request"))
  else
    match pollLoop path ((path ++ "request", "") :: fs) env with
    | none => Except.ok none
    | some (fs2, ops) =>
      match fs2.readFile (path ++ "out") with
      | none => Except.error (PyError.ioError (path ++ "out"))
      | some contents =>
        Except.ok (some (contents, fs2.removeFile (path ++ "out"),
          FileOp.mknod (path ++ "request") :: ops ++
            [FileOp.readFile (path ++ "out"), FileOp.removeFile (path ++ "out")]))

/-- The operation trace of a poll that found `p` after `k` failed checks,
sleeping 100 ms between consecutive checks. -/
def pollTrace (p : String) : ℕ → List FileOp
  | 0 => [FileOp.pollCheck p true]
  | k + 1 => FileOp.pollCheck p false :: FileOp.sleepMs 100 :: pollTrace p k

/-- A successful poll produces exactly a `pollTrace`, and exits in a state
where the awaited file exists. -/
theorem pollLoop_spec (path : String) (env : List (List (String × String))) :
    ∀ (fs fs' : FS) (ops : List FileOp),
    pollLoop path fs env = some (fs', ops) →
    (∃ k, ops = pollTrace (path ++ "out") k) ∧
      fs'.existsFile (path ++ "out") = true := by
  induction env with
  | nil =>
    intro fs fs' ops h
    exact absurd h (by simp [pollLoop])
  | cons w rest ih =>
    intro fs fs' ops h
    unfold pollLoop at h
    by_cases hex : FS.existsFile (w ++ fs) (path ++ "out") = true
    · rw [if_pos hex] at h
      rcases Option.some.inj h with h'
      rw [Prod.mk.injEq] at h'
      refine ⟨⟨0, h'.2.symm⟩, ?_⟩
      rw [← h'.1]
      exact hex
    · rw [if_neg hex] at h
      cases hrec : pollLoop path (w ++ fs) rest with
      | none => rw [hrec] at h; exact absurd h (by simp)
      | some pr =>
        rw [hrec] at h
        rcases Option.some.inj h with h'
        rw [Prod.mk.injEq] at h'
        rcases ih (w ++ fs) pr.1 pr.2 (by rw [hrec]) with ⟨⟨k, hk⟩, hex'⟩
        refine ⟨⟨k + 1, ?_⟩, ?_⟩
        · rw [← h'.2, hk]
          rfl
        · rw [← h'.1]
          exact hex'

/-- Removing a path removes it: afterwards the file no longer exists. -/
theorem removeFile_not_exists (fs : FS) (p : String) :
    (fs.removeFile p).existsFile p = false := by
  induction fs with
  | nil => rfl
  | cons e rest ih =>
    unfold FS.removeFile FS.existsFile at *
    by_cases he : e.1 == p
    · simpa [List.filter, he] using ih
    · simp only [List.filter, Bool.not_eq_true] at *
      rw [he]
      simpa [List.any, he] using ih

/-- C8: whenever `check_file` completes, its operation trace is exactly
"create `PATH + 'request'`, poll for `PATH + 'out'` sleeping 100 ms between
checks, read `PATH + 'out'`, remove `PATH + 'out'`"; the returned label is
the entire contents `PATH + 'out'` held at the moment polling found it; and
`PATH + 'out'` does not exist in the filesystem `check_file` leaves behind. -/
theorem C8_round_trip (object_id path : String) (fs : FS)
    (env : List (List (String × String))) (label : String) (fs' : FS)
    (ops : List FileOp)
    (h : check_file object_id path fs env = Except.ok (some (label, fs', ops))) :
    (∃ k, ops = FileOp.mknod (path ++ "request") :: pollTrace (path ++ "out") k ++
        [FileOp.readFile (path ++ "out"), FileOp.removeFile (path ++ "out")]) ∧
    (∃ fsExit : FS, fsExit.readFile (path ++ "out") = some label ∧
        fs' = fsExit.removeFile (path ++ "out")) ∧
    fs'.existsFile (path ++ "out") = false := by
  unfold check_file at h
  split at h
  · exact absurd h (by simp)
  split at h
  · exact absurd h (by simp)
  next fsExit opsExit hpoll =>
    split at h
    · exact absurd h (by simp)
    next contents hread =>
      simp only [Except.ok.injEq, Option.some.injEq, Prod.mk.injEq] at h
      rcases h with ⟨hlabel, hfs', hops⟩
      rcases pollLoop_spec path env ((path ++ "request", "") :: fs) fsExit opsExit
        hpoll with ⟨⟨k, hk⟩, -⟩
      refine ⟨⟨k, ?_⟩, ⟨fsExit, ?_, hfs'.symm⟩, ?_⟩
      · rw [← hops, hk]
      · rw [hread, hlabel]
      · rw [← hfs']
        exact removeFile_not_exists fsExit (path ++ "out")

/-- Witness for C8: a concrete run where the Gateway writes `p/out` with
contents `alice` before the second existence check. -/
theorem C8_round_trip_witness :
    (∃ k, [FileOp.mknod "p/request", FileOp.pollCheck "p/out" false,
        FileOp.sleepMs 100, FileOp.pollCheck "p/out" true,
        FileOp.readFile "p/out", FileOp.removeFile "p/out"]
      = FileOp.mknod ("p/" ++ "request") :: pollTrace ("p/" ++ "out") k ++
        [FileOp.readFile ("p/" ++ "out"), FileOp.removeFile ("p/" ++ "out")]) ∧
    (∃ fsExit : FS, fsExit.readFile ("p/" ++ "out") = some "alice" ∧
        ([("p/request", "")] : FS) = fsExit.removeFile ("p/" ++ "out")) ∧
    FS.existsFile [("p/request", "")] ("p/" ++ "out") = false :=
  C8_round_trip "42" "p/" [] [[], [("p/out", "alice")]] "alice"
    [("p/request", "")]
    [FileOp.mknod "p/request", FileOp.pollCheck "p/out" false,
     FileOp.sleepMs 100, FileOp.pollCheck "p/out" true,
     FileOp.readFile "p/out", FileOp.removeFile "p/out"]
    (by rfl)

/-- `os.environ[k]` (`face_recognizer.py` line 8): the value when the
variable is set, a `KeyError` otherwise. -/
def environ_lookup (env : List (String × String)) (k : String) :
    Except PyError String :=
  match env.find? (fun e => e.1 == k) with
  | some e => Except.ok e.2
  | none => Except.error (PyError.keyError k)

/-- Module start-up of `face_recognizer.py`: line 8 reads
`os.environ['VISION_COMM_PATH']` (an unhandled `KeyError` aborts the process
if the variable is unset); the `__main__` block (lines 27-31) then removes
any stale `out` and `request` files before starting the service. -/
def recognizer_startup (env : List (String × String)) (fs : FS) :
    Except PyError (String × FS) :=
  match environ_lookup env "VISION_COMM_PATH" with
  | Except.error e => Except.error e
  | Except.ok path =>
    let fs1 := if fs.existsFile (path ++ "out") then fs.removeFile (path ++ "out") else fs
    let fs2 := if fs1.existsFile (path ++ "request") then fs1.removeFile (path ++ "request") else fs1
    Except.ok (path, fs2)

/-- C9: if `VISION_COMM_PATH` is absent from the environment the recognizer
process aborts at start-up with a `KeyError`; if it is set, start-up
proceeds (reaching the service loop) with that value as `PATH`. -/
theorem C9_missing_path_fatal (env : List (String × String)) (fs : FS) :
    (env.find? (fun e => e.1 == "VISION_COMM_PATH") = none →
      recognizer_startup env fs = Except.error (PyError.keyError "VISION_COMM_PATH")) ∧
    (∀ e : String × String, env.find? (fun e0 => e0.1 == "VISION_COMM_PATH") = some e →
      ∃ fs' : FS, recognizer_startup env fs = Except.ok (e.2, fs')) := by
  constructor
  · intro hnone
    unfold recognizer_startup environ_lookup
    rw [hnone]
  · intro e hsome
    unfold recognizer_startup environ_lookup
    rw [hsome]
    exact ⟨_, rfl⟩

/-- Witness for C9: the empty environment aborts; an environment binding
`VISION_COMM_PATH` to `p/` proceeds. -/
theorem C9_missing_path_fatal_witness :
    recognizer_startup [] [] = Except.error (PyError.keyError "VISION_COMM_PATH") ∧
    (∃ fs' : FS, recognizer_startup [("VISION_COMM_PATH", "p/")] []
      = Except.ok ("p/", fs')) :=
  ⟨(C9_missing_path_fatal [] []).1 rfl,
    (C9_missing_path_fatal [("VISION_COMM_PATH", "p/")] []).2
      ("VISION_COMM_PATH", "p/") rfl⟩

/-- C10: `check_file` never inspects its `object_id` argument — two calls
with different request arguments against identical filesystem state and
environment behavior return the same label and perform the same filesystem
effects. -/
theorem C10_object_id_irrelevant (id1 id2 path : String) (fs : FS)
    (env : List (List (String × String))) :
    check_file id1 path fs env = check_file id2 path fs env :=
  rfl

end Vision
